import Mathlib

/-!
Shallow embedding of `src/analyzer.py` (class `SurgicalAnalyzer`) from the
Surgical-Workflow-Intelligence repository, together with proofs of the
spec claims about it.

Modelling conventions:
* Python floats carried by the input records are modelled as exact
  rationals (`ℚ`); derived statistics that involve square roots
  (Pearson correlation, standardized features) live in `ℝ`.
* `scipy.stats.pearsonr` returning `nan` on a zero-variance column is
  modelled by an `Option ℝ` result (`none` = NaN); `abs(nan) > 0.1`
  is `False` in Python, which corresponds to the `none` case being
  filtered out.
* Python dictionaries keyed by strings are modelled as association
  lists (`List (String × _)`); insertion order is preserved.
* The sklearn estimators `IsolationForest` / `KMeans` and the
  `silhouette_score` metric are external library calls; they are taken
  as explicit function parameters (seed and data in, predictions out),
  which makes the fixed `random_state=42` wiring of the source visible.
* `perform_power_analysis` is additionally modelled with exact IEEE-754
  binary64 semantics (`roundD` below) because its claimed values are
  sensitive to double rounding.
-/

namespace SWI

/-- One row of the `procedures` DataFrame (columns generated by
`SurgicalDataLoader._generate_procedures_data`). -/
structure Procedure where
  procedure_id : String
  procedure_type : String
  duration_minutes : ℚ
  efficiency_score : ℚ
  surgeon_experience_yrs : ℚ
  patient_bmi : ℚ
  blood_loss_ml : ℚ
  complications : ℚ
  surgical_site : String
  instrument_changes : ℚ
  deriving DecidableEq

/-- One row of the `tool_metrics` DataFrame. -/
structure ToolUsage where
  procedure_id : String
  tool_type : String
  usage_time_minutes : ℚ
  max_force_applied : ℚ
  avg_temperature_c : ℚ
  activation_count : ℚ
  efficiency_rating : ℚ
  tissue_sticking_incidents : ℚ
  deriving DecidableEq

/-- One row of the `sensor_data` DataFrame. -/
structure SensorRow where
  procedure_id : String
  timestamp_minutes : ℚ
  force_sensor : ℚ
  motor_current : ℚ
  vibration : ℚ
  pressure : ℚ
  deriving DecidableEq

/-- Sum of a rational list (pandas column `.sum()`). -/
def qsum (l : List ℚ) : ℚ := l.sum

/-- Mean of a rational column (pandas `.mean()`); the empty case is never
reached on the paths the claims are about. -/
def qmean (l : List ℚ) : ℚ := l.sum / l.length

/-- Per-procedure aggregate of tool-usage events used by
`analyze_tool_performance_correlation`:
`groupby('procedure_id').agg({'usage_time_minutes': 'sum',
'max_force_applied': 'mean', 'avg_temperature_c': 'mean',
'efficiency_rating': 'mean'})`. -/
structure ToolAgg where
  usage_time_minutes : ℚ
  max_force_applied : ℚ
  avg_temperature_c : ℚ
  efficiency_rating : ℚ
  deriving DecidableEq

/-- The aggregate row for one `procedure_id`, or `none` when the id has no
tool-usage events (such a procedure is dropped by the inner merge). -/
def toolAggFor (tool_metrics : List ToolUsage) (pid : String) : Option ToolAgg :=
  let rows := tool_metrics.filter (fun t => t.procedure_id = pid)
  if rows.isEmpty then none
  else some
    { usage_time_minutes := qsum (rows.map (·.usage_time_minutes))
      max_force_applied := qmean (rows.map (·.max_force_applied))
      avg_temperature_c := qmean (rows.map (·.avg_temperature_c))
      efficiency_rating := qmean (rows.map (·.efficiency_rating)) }

/-- One row of `merged_data` in `analyze_tool_performance_correlation`:
a procedure joined with its tool-usage aggregate. -/
structure MergedRow where
  proc : Procedure
  agg : ToolAgg
  deriving DecidableEq

/-- Model of `procedures.merge(tool_metrics.groupby(...).agg(...), on='procedure_id')`:
an inner join that keeps the `procedures` row order and drops procedures
without tool-usage events. -/
def mergeToolAgg (procedures : List Procedure) (tool_metrics : List ToolUsage) :
    List MergedRow :=
  procedures.filterMap fun p =>
    (toolAggFor tool_metrics p.procedure_id).map fun a => { proc := p, agg := a }

/-- Column access `merged_data[name]` for the eight columns the correlation
loop reads. -/
def mergedCol (name : String) (r : MergedRow) : ℚ :=
  if name = "duration_minutes" then r.proc.duration_minutes
  else if name = "efficiency_score" then r.proc.efficiency_score
  else if name = "blood_loss_ml" then r.proc.blood_loss_ml
  else if name = "complications" then r.proc.complications
  else if name = "usage_time_minutes" then r.agg.usage_time_minutes
  else if name = "max_force_applied" then r.agg.max_force_applied
  else if name = "avg_temperature_c" then r.agg.avg_temperature_c
  else if name = "efficiency_rating" then r.agg.efficiency_rating
  else 0

/-- Centered second moment `∑ (f r - mean f) * (g r - mean g)` over a data
set; `corrS data f f` is the (unnormalized) variance of the `f` column. -/
def corrS {α : Type} (data : List α) (f g : α → ℚ) : ℚ :=
  (data.map (fun r => (f r - qmean (data.map f)) * (g r - qmean (data.map g)))).sum

/-- Model of `scipy.stats.pearsonr`, coefficient component.  On a zero-variance
column scipy emits a `ConstantInputWarning` (suppressed by the source's
`warnings.filterwarnings('ignore')`) and returns `nan`; that case is the
`none` branch.  The p-value component is not modelled: no claim reads it. -/
noncomputable def pearsonr {α : Type} (data : List α) (f g : α → ℚ) : Option ℝ :=
  if corrS data f f = 0 ∨ corrS data g g = 0 then none
  else some ((corrS data f g : ℝ) /
    (Real.sqrt (corrS data f f) * Real.sqrt (corrS data g g)))

/-- The line `strength = "strong" if abs(corr) > 0.5 else "moderate" if abs(corr) > 0.3
else "weak"` of `_interpret_correlation`. -/
noncomputable def strengthWord (corr : ℝ) : String :=
  if |corr| > 0.5 then "strong" else if |corr| > 0.3 then "moderate" else "weak"

/-- The line `direction = "positive" if corr > 0 else "negative"` of
`_interpret_correlation`. -/
noncomputable def directionWord (corr : ℝ) : String :=
  if corr > 0 then "positive" else "negative"

/-- The dictionary key `f"{feature}_{metric}"`. -/
def corrKey (feature metric : String) : String := feature ++ "_" ++ metric

/-- Model of `SurgicalAnalyzer._interpret_correlation`: a three-entry lookup table of
specific phrasings with a generic fallback. -/
noncomputable def interpretCorrelation (corr : ℝ) (feature metric : String) :
    String :=
  let strength := strengthWord corr
  let direction := directionWord corr
  let interpretations : List (String × String) :=
    [("max_force_applied_duration_minutes",
      strength ++ " " ++ direction ++
        " relationship between maximum force and procedure duration"),
     ("efficiency_rating_efficiency_score",
      strength ++ " " ++ direction ++
        " relationship between tool efficiency and overall procedure efficiency"),
     ("usage_time_minutes_blood_loss_ml",
      strength ++ " " ++ direction ++
        " relationship between tool usage time and blood loss")]
  (interpretations.lookup (corrKey feature metric)).getD
    (strength ++ " " ++ direction ++ " correlation")

/-- One value of the `correlations` dictionary (the unmodelled p-value
omitted). -/
structure CorrEntry where
  correlation : ℝ
  interpretation : String

/-- The outer loop list `metrics` of
`analyze_tool_performance_correlation`. -/
def metricsList : List String :=
  ["duration_minutes", "efficiency_score", "blood_loss_ml", "complications"]

/-- The inner loop list `tool_features`. -/
def toolFeaturesList : List String :=
  ["usage_time_minutes", "max_force_applied", "avg_temperature_c",
   "efficiency_rating"]

/-- The double loop of `analyze_tool_performance_correlation` building the
`correlations` dictionary: each (feature, metric) pair contributes an entry
exactly when its coefficient is defined (not NaN) and `abs(corr) > 0.1`. -/
noncomputable def corrEntries (procedures : List Procedure)
    (tool_metrics : List ToolUsage) : List (String × CorrEntry) :=
  metricsList.flatMap fun metric =>
    toolFeaturesList.filterMap fun feature =>
      (pearsonr (mergeToolAgg procedures tool_metrics)
          (mergedCol feature) (mergedCol metric)).bind fun corr =>
        if |corr| > 0.1 then
          some (corrKey feature metric,
            { correlation := corr
              interpretation := interpretCorrelation corr feature metric })
        else none

/-- Model of `SurgicalAnalyzer.analyze_tool_performance_correlation`.
`scipy.stats.pearsonr` raises `ValueError` when the merged data has fewer
than two rows (the `Except.error` branch). -/
noncomputable def analyzeToolPerformanceCorrelation
    (procedures : List Procedure) (tool_metrics : List ToolUsage) :
    Except String (List (String × CorrEntry)) :=
  if (mergeToolAgg procedures tool_metrics).length < 2 then
    .error "x and y must have length at least 2."
  else
    .ok (corrEntries procedures tool_metrics)

/-- Model of `SurgicalAnalyzer._name_surgical_phase`.  The source reads
`phase_stats.get('force_sensor', 0)` and `phase_stats.get('motor_current', 0)`
from the cluster-mean dictionary; here the two means are the arguments. -/
noncomputable def nameSurgicalPhase (force current : ℝ) : String :=
  if force < 1.0 ∧ current < 1.0 then "Setup/Preparation"
  else if force > 2.0 ∧ current > 1.8 then "Active Dissection"
  else if force > 1.5 ∧ current < 1.5 then "Precise Manipulation"
  else "Closure/Finishing"

/-- The four phase labels `_name_surgical_phase` can produce. -/
def phaseLabels : List String :=
  ["Setup/Preparation", "Active Dissection", "Precise Manipulation",
   "Closure/Finishing"]

/-- Model of `SurgicalAnalyzer._identify_outlier_causes`: four sequential
fixed-threshold appends, then the fallback when no rule fired.  The source
reads only the four procedure columns used below. -/
def identifyOutlierCauses (p : Procedure) : List String :=
  let causes :=
    (if p.duration_minutes > 200 then ["Extended procedure duration"] else []) ++
    (if p.efficiency_score < 60 then ["Low efficiency score"] else []) ++
    (if p.blood_loss_ml > 300 then ["High blood loss"] else []) ++
    (if p.instrument_changes > 6 then ["Frequent instrument changes"] else [])
  if causes.isEmpty then ["Complex case factors"] else causes

/-- Number of the four threshold rules that fire on a record. -/
def ruleCount (p : Procedure) : ℕ :=
  (if p.duration_minutes > 200 then 1 else 0) +
  (if p.efficiency_score < 60 then 1 else 0) +
  (if p.blood_loss_ml > 300 then 1 else 0) +
  (if p.instrument_changes > 6 then 1 else 0)

/-- The names of the rules that fire, in the order the source appends them. -/
def firedCauses (p : Procedure) : List String :=
  ((([("Extended procedure duration", decide (p.duration_minutes > 200)),
      ("Low efficiency score", decide (p.efficiency_score < 60)),
      ("High blood loss", decide (p.blood_loss_ml > 300)),
      ("Frequent instrument changes", decide (p.instrument_changes > 6))] :
      List (String × Bool)).filter Prod.snd).map Prod.fst)

/-! IEEE-754 binary64 rounding, needed because `perform_power_analysis`
computes `int(16 / (effect_size ** 2))` in Python floats and its claimed
values are sensitive to double rounding.  Only positive normal-range
values occur (all inputs are in [0.04, 400]), so overflow and subnormals
need no treatment. -/

/-- Two to an integer power, in `ℚ`. -/
def qpow2 (e : ℤ) : ℚ :=
  if 0 ≤ e then (2 : ℚ) ^ e.toNat else (1 / 2 : ℚ) ^ (-e).toNat

/-- Fuel-bounded floor base-2 logarithm on naturals (structural recursion,
adequate for any argument below `2 ^ fuel`). -/
def natLog2F : ℕ → ℕ → ℕ
  | 0, _ => 0
  | fuel + 1, n => if n < 2 then 0 else natLog2F fuel (n / 2) + 1

/-- A positive binary64 value `mant * 2 ^ exp` (mantissa not necessarily
normalized; all values in `perform_power_analysis` are positive and in the
normal range, so sign, overflow and subnormals need no treatment). -/
structure D64 where
  mant : ℕ
  exp : ℤ
  deriving DecidableEq

/-- Floor of the base-2 logarithm of the positive fraction `a / b`. -/
def rlog2 (a b : ℕ) : ℤ :=
  let c : ℤ := (natLog2F 256 a : ℤ) - (natLog2F 256 b : ℤ)
  if b * 2 ^ c.toNat ≤ a * 2 ^ (-c).toNat then c else c - 1

/-- Round the positive fraction `a / b` to 53 significand bits
(round to nearest, ties to even): the IEEE-754 binary64 rounding of an
exact ratio. -/
def roundRat53 (a b : ℕ) : D64 :=
  let e : ℤ := rlog2 a b
  let s : ℤ := 52 - e
  let num : ℕ := a * 2 ^ s.toNat
  let den : ℕ := b * 2 ^ (-s).toNat
  let n : ℕ := num / den
  let r2 : ℕ := 2 * (num - n * den)
  let n' : ℕ :=
    if r2 < den then n
    else if den < r2 then n + 1
    else if n % 2 = 0 then n else n + 1
  { mant := n', exp := e - 52 }

/-- The binary64 nearest to the fraction `a / b` (used for the decimal
float literals of the source). -/
def D64.ofRatParts (a b : ℕ) : D64 := roundRat53 a b

/-- Correctly rounded binary64 product (`x * y` on Python floats;
the power-of-two exponent shift is exact). -/
def D64.mul (x y : D64) : D64 :=
  let z := roundRat53 (x.mant * y.mant) 1
  { mant := z.mant, exp := z.exp + x.exp + y.exp }

/-- Correctly rounded binary64 quotient of an exactly representable
natural by a positive double (`a / x` on Python floats). -/
def D64.divNat (a : ℕ) (x : D64) : D64 :=
  let z := roundRat53 a x.mant
  { mant := z.mant, exp := z.exp - x.exp }

/-- Python `int()` on a positive double: truncation toward zero. -/
def D64.toIntTrunc (x : D64) : ℕ :=
  if 0 ≤ x.exp then x.mant * 2 ^ x.exp.toNat else x.mant / 2 ^ (-x.exp).toNat

/-- Exact rational value of a binary64. -/
def D64.toRat (x : D64) : ℚ := (x.mant : ℚ) * qpow2 x.exp

/-- One value of the `power_analysis` dictionary.  The
`interpretation` string carries `str(required_n)`. -/
structure PowerRow where
  effect_size : ℚ
  required_sample_size : ℤ
  interpretation_text : String
  deriving DecidableEq

/-- Model of `SurgicalAnalyzer.perform_power_analysis` under Python float semantics:
the loop literals `0.2`, `0.5`, `0.8` are the nearest binary64 values,
`effect_size ** 2` and `16 / _` round their exact results to binary64, and
`int` truncates toward zero.  The `procedures` and `metric` parameters are
unused in the source body. -/
def performPowerAnalysis (_procedures : List Procedure) (_metric : String) :
    List (String × PowerRow) :=
  [("0.2", D64.ofRatParts 2 10), ("0.5", D64.ofRatParts 5 10),
   ("0.8", D64.ofRatParts 8 10)].map fun es =>
    let required_n : ℕ := (D64.divNat 16 (es.2.mul es.2)).toIntTrunc
    ("effect_size_" ++ es.1,
     { effect_size := es.2.toRat
       required_sample_size := (required_n : ℤ)
       interpretation_text :=
         "Requires " ++ toString required_n ++ " procedures to detect " })

/-! The mutable attributes of a `SurgicalAnalyzer` instance.  `self.scaler`
is refit (`fit_transform`) on every engine call; the two model attributes
are overwritten, never read.  Fitted estimators are represented by their
fitted parameters / constructor arguments. -/

/-- Fields `self.scaler`, `self.procedure_cluster_model`, `self.outlier_detector`. -/
structure AnalyzerState where
  scaler : Option (List ℚ × List ℚ)
  procedure_cluster_model : Option (ℕ × ℕ)
  outlier_detector : Option (ℚ × ℕ)
  deriving DecidableEq

/-- Model of `SurgicalAnalyzer.__init__`. -/
def analyzerInit : AnalyzerState :=
  { scaler := none, procedure_cluster_model := none, outlier_detector := none }

/-- Column `j` of a row-major feature matrix. -/
def matCol (X : List (List ℚ)) (j : ℕ) : List ℚ := X.map (fun row => row.getD j 0)

/-- Per-column means fitted by `StandardScaler.fit`. -/
def fitMeans (ncols : ℕ) (X : List (List ℚ)) : List ℚ :=
  (List.range ncols).map fun j => qmean (matCol X j)

/-- Per-column population variances fitted by `StandardScaler.fit`. -/
def fitVars (ncols : ℕ) (X : List (List ℚ)) : List ℚ :=
  (List.range ncols).map fun j =>
    qmean ((matCol X j).map fun x => (x - qmean (matCol X j)) ^ 2)

/-- Model of `StandardScaler.transform` with fitted means/variances:
`(x - mean) / std`, where sklearn replaces a zero std by 1. -/
noncomputable def scalerTransform (ncols : ℕ) (means vars : List ℚ)
    (row : List ℚ) : List ℝ :=
  (List.range ncols).map fun j =>
    ((row.getD j 0 - means.getD j 0 : ℚ) : ℝ) /
      (if vars.getD j 0 = 0 then 1 else Real.sqrt ((vars.getD j 0 : ℚ) : ℝ))

/-- Model of `self.scaler.fit_transform(X)`. -/
noncomputable def fitTransform (ncols : ℕ) (X : List (List ℚ)) :
    List (List ℝ) :=
  X.map (scalerTransform ncols (fitMeans ncols X) (fitVars ncols X))

/-- Per-procedure aggregate used by `identify_efficiency_outliers`:
`agg({'usage_time_minutes': 'sum', 'efficiency_rating': 'mean',
'tissue_sticking_incidents': 'sum'})`. -/
structure EffAgg where
  usage_time_minutes : ℚ
  efficiency_rating : ℚ
  tissue_sticking_incidents : ℚ
  deriving DecidableEq

/-- The efficiency aggregate row for one `procedure_id`. -/
def effAggFor (tool_metrics : List ToolUsage) (pid : String) : Option EffAgg :=
  let rows := tool_metrics.filter (fun t => t.procedure_id = pid)
  if rows.isEmpty then none
  else some
    { usage_time_minutes := qsum (rows.map (·.usage_time_minutes))
      efficiency_rating := qmean (rows.map (·.efficiency_rating))
      tissue_sticking_incidents := qsum (rows.map (·.tissue_sticking_incidents)) }

/-- One row of `efficiency_data`. -/
structure EffRow where
  proc : Procedure
  agg : EffAgg
  deriving DecidableEq

/-- The inner merge building `efficiency_data`. -/
def mergeEff (procedures : List Procedure) (tool_metrics : List ToolUsage) :
    List EffRow :=
  procedures.filterMap fun p =>
    (effAggFor tool_metrics p.procedure_id).map fun a => { proc := p, agg := a }

/-- The six-feature vector `outlier_features` of one `efficiency_data` row. -/
def effFeatures (r : EffRow) : List ℚ :=
  [r.proc.duration_minutes, r.proc.efficiency_score, r.agg.usage_time_minutes,
   r.agg.efficiency_rating, r.proc.blood_loss_ml, r.proc.instrument_changes]

/-- One value of the `outlier_analysis` dictionary. -/
structure OutlierInfo where
  procedure_type : String
  duration : ℚ
  efficiency_score : ℚ
  blood_loss : ℚ
  likely_causes : List String
  deriving DecidableEq

/-- The result dictionary of `identify_efficiency_outliers`. -/
structure OutlierReport where
  outlier_procedures : List (String × OutlierInfo)
  total_outliers : ℕ
  outlier_rate : ℚ
  deriving DecidableEq

/-- Model of `SurgicalAnalyzer.identify_efficiency_outliers`.  The `IsolationForest`
library call is the parameter `forest`, given the source's fixed
`random_state=42` and the standardized matrix; it returns the per-row
outlier flags (`fit_predict(...) == -1`).  On an empty joined population
`StandardScaler.fit_transform` raises `ValueError` before any division
(the `Except.error` branch). -/
noncomputable def identifyEfficiencyOutliers
    (forest : ℕ → List (List ℝ) → List Bool) (st : AnalyzerState)
    (procedures : List Procedure) (tool_metrics : List ToolUsage) :
    Except String (AnalyzerState × OutlierReport) :=
  let efficiency_data := mergeEff procedures tool_metrics
  let X := efficiency_data.map effFeatures
  if X.isEmpty then
    .error "Found array with 0 sample(s) (shape=(0, 6)) while a minimum of 1 is required by StandardScaler."
  else
    let X_scaled := fitTransform 6 X
    let outliers := forest 42 X_scaled
    -- efficiency_data['is_outlier'] = outliers == -1   (a derived frame)
    let outlier_procedures := ((efficiency_data.zip outliers).filter Prod.snd).map Prod.fst
    let outlier_analysis := outlier_procedures.map fun r =>
      (r.proc.procedure_id,
       { procedure_type := r.proc.procedure_type
         duration := r.proc.duration_minutes
         efficiency_score := r.proc.efficiency_score
         blood_loss := r.proc.blood_loss_ml
         likely_causes := identifyOutlierCauses r.proc : OutlierInfo })
    .ok ({ st with scaler := some (fitMeans 6 X, fitVars 6 X)
                   outlier_detector := some (1 / 10, 42) },
         { outlier_procedures := outlier_analysis
           total_outliers := outlier_procedures.length
           outlier_rate := (outlier_procedures.length : ℚ) / efficiency_data.length })

/-- One row of `phase_features`: per-(procedure, time-bucket) channel
means. -/
structure PhaseFeatureRow where
  procedure_id : String
  timestamp_minutes : ℚ
  force_sensor : ℚ
  motor_current : ℚ
  vibration : ℚ
  pressure : ℚ
  deriving DecidableEq

/-- Group keys of `sensor_data.groupby(['procedure_id', 'timestamp_minutes'])`
in pandas order (keys sorted ascending, duplicates collapsed). -/
def sensorGroupKeys (sensor_data : List SensorRow) : List (String × ℚ) :=
  ((sensor_data.map fun r => (r.procedure_id, r.timestamp_minutes)).eraseDups).mergeSort
    fun a b => a.1 < b.1 || (a.1 = b.1 && a.2 ≤ b.2)

/-- The `phase_features` frame: per-group means of the four channels. -/
def phaseFeatures (sensor_data : List SensorRow) : List PhaseFeatureRow :=
  (sensorGroupKeys sensor_data).map fun k =>
    let rows := sensor_data.filter fun r =>
      r.procedure_id = k.1 && r.timestamp_minutes = k.2
    { procedure_id := k.1
      timestamp_minutes := k.2
      force_sensor := qmean (rows.map (·.force_sensor))
      motor_current := qmean (rows.map (·.motor_current))
      vibration := qmean (rows.map (·.vibration))
      pressure := qmean (rows.map (·.pressure)) }

/-- The four-channel feature vector of a `phase_features` row
(`feature_cols`). -/
def phaseVector (r : PhaseFeatureRow) : List ℚ :=
  [r.force_sensor, r.motor_current, r.vibration, r.pressure]

/-- One value of the `phase_summary` dictionary. -/
structure PhaseSummary where
  phase_name : String
  avg_duration_minutes : ℚ
  avg_force : ℚ
  avg_motor_current : ℚ
  n_procedures : ℕ

/-- The result dictionary of `detect_surgical_phases`. -/
structure PhasesReport where
  phase_assignments : List (PhaseFeatureRow × ℕ)
  phase_summary : List (ℕ × PhaseSummary)
  silhouette : ℝ

/-- Model of `SurgicalAnalyzer.detect_surgical_phases`.  `kmeans` stands for
`KMeans(n_clusters, random_state=42).fit_predict` (seed, cluster count and
standardized matrix in, per-row cluster ids out) and `sil` for
`silhouette_score`.  An empty grouped population makes
`StandardScaler.fit_transform` raise, as in the outlier engine. -/
noncomputable def detectSurgicalPhases
    (kmeans : ℕ → ℕ → List (List ℝ) → List ℕ)
    (sil : List (List ℝ) → List ℕ → ℝ) (st : AnalyzerState)
    (sensor_data : List SensorRow) (n_clusters : ℕ) :
    Except String (AnalyzerState × PhasesReport) :=
  let phase_features := phaseFeatures sensor_data
  let X := phase_features.map phaseVector
  if X.isEmpty then
    .error "Found array with 0 sample(s) (shape=(0, 4)) while a minimum of 1 is required by StandardScaler."
  else
    let X_scaled := fitTransform 4 X
    let clusters := kmeans 42 n_clusters X_scaled
    -- phase_features['phase'] = clusters   (a derived frame)
    let assigned := phase_features.zip clusters
    let phase_summary := (List.range n_clusters).map fun phase =>
      let phase_data := (assigned.filter fun rc => rc.2 = phase).map Prod.fst
      (phase,
       { phase_name := nameSurgicalPhase
           ((qmean (phase_data.map (·.force_sensor)) : ℚ) : ℝ)
           ((qmean (phase_data.map (·.motor_current)) : ℚ) : ℝ)
         avg_duration_minutes :=
           qmean (((phase_data.map (·.procedure_id)).eraseDups).map fun pid =>
             ((phase_data.filter fun r => r.procedure_id = pid).length : ℚ)) * 2
         avg_force := qmean (phase_data.map (·.force_sensor))
         avg_motor_current := qmean (phase_data.map (·.motor_current))
         n_procedures := ((phase_data.map (·.procedure_id)).eraseDups).length :
         PhaseSummary })
    .ok ({ st with scaler := some (fitMeans 4 X, fitVars 4 X)
                   procedure_cluster_model := some (n_clusters, 42) },
         { phase_assignments := assigned
           phase_summary := phase_summary
           silhouette := sil X_scaled clusters })

/-- One value of the `analysis` dictionary of
`analyze_procedure_type_patterns`. -/
structure TypePattern where
  avg_duration : ℚ
  avg_efficiency : ℚ
  complication_rate : ℚ
  common_tools : List (String × ℕ)
  avg_tool_usage_time : ℚ
  n_procedures : ℕ
  deriving DecidableEq

/-- Model of `SurgicalAnalyzer.analyze_procedure_type_patterns`: pure grouping and
aggregation; `value_counts().head(3)` is count-descending (stable on ties)
truncated to three. -/
def analyzeProcedureTypePatterns (procedures : List Procedure)
    (tool_metrics : List ToolUsage) : List (String × TypePattern) :=
  ((procedures.map (·.procedure_type)).eraseDups).map fun proc_type =>
    let type_data := procedures.filter fun p => p.procedure_type = proc_type
    let ids := type_data.map (·.procedure_id)
    let type_tools := tool_metrics.filter fun t => t.procedure_id ∈ ids
    let toolNames := type_tools.map (·.tool_type)
    (proc_type,
     { avg_duration := qmean (type_data.map (·.duration_minutes))
       avg_efficiency := qmean (type_data.map (·.efficiency_score))
       complication_rate := qmean (type_data.map (·.complications))
       common_tools :=
         (((toolNames.eraseDups).map fun tl => (tl, toolNames.count tl)).mergeSort
           fun a b => b.2 ≤ a.2).take 3
       avg_tool_usage_time := qmean (type_tools.map (·.usage_time_minutes))
       n_procedures := type_data.length })

/-- The Tabular Store: the caller-owned input record collections. -/
structure Store where
  procedures : List Procedure
  tool_metrics : List ToolUsage
  sensor_data : List SensorRow
  deriving DecidableEq

/-! Store-passing wrappers of the four engine calls.  Every pandas column
assignment in the source (`efficiency_data['is_outlier'] = ...`,
`phase_features['phase'] = ...`) targets a frame returned by
`merge`/`groupby(...).agg(...)` — a new object — so the stored input
collections flow through each call unchanged. -/

/-- Correlation engine over the store. -/
noncomputable def analyzeToolPerformanceCorrelationRun (s : Store)
    (st : AnalyzerState) :
    Store × AnalyzerState × Except String (List (String × CorrEntry)) :=
  (s, st, analyzeToolPerformanceCorrelation s.procedures s.tool_metrics)

/-- Outlier engine over the store. -/
noncomputable def identifyEfficiencyOutliersRun
    (forest : ℕ → List (List ℝ) → List Bool) (s : Store) (st : AnalyzerState) :
    Store × Except String (AnalyzerState × OutlierReport) :=
  (s, identifyEfficiencyOutliers forest st s.procedures s.tool_metrics)

/-- Phase-clustering engine over the store. -/
noncomputable def detectSurgicalPhasesRun
    (kmeans : ℕ → ℕ → List (List ℝ) → List ℕ)
    (sil : List (List ℝ) → List ℕ → ℝ) (s : Store) (st : AnalyzerState)
    (n_clusters : ℕ) :
    Store × Except String (AnalyzerState × PhasesReport) :=
  (s, detectSurgicalPhases kmeans sil st s.sensor_data n_clusters)

/-- Type-pattern engine over the store. -/
def analyzeProcedureTypePatternsRun (s : Store) (st : AnalyzerState) :
    Store × AnalyzerState × List (String × TypePattern) :=
  (s, st, analyzeProcedureTypePatterns s.procedures s.tool_metrics)

/-- A record on which exactly the duration and blood-loss rules fire. -/
def outlierProcW : Procedure :=
  { procedure_id := "PROC_0001", procedure_type := "GI Surgery"
    duration_minutes := 250, efficiency_score := 80
    surgeon_experience_yrs := 10, patient_bmi := 28, blood_loss_ml := 400
    complications := 0, surgical_site := "Abdominal", instrument_changes := 3 }

/-- A one-procedure, one-tool-row population for the outlier witnesses. -/
def procW3 : Procedure :=
  { procedure_id := "PROC_0000", procedure_type := "Hernia Repair"
    duration_minutes := 120, efficiency_score := 85
    surgeon_experience_yrs := 5, patient_bmi := 25, blood_loss_ml := 50
    complications := 0, surgical_site := "Abdominal", instrument_changes := 2 }

/-- A tool-usage row joined to `procW3`. -/
def toolW3 : ToolUsage :=
  { procedure_id := "PROC_0000", tool_type := "Stapler"
    usage_time_minutes := 20, max_force_applied := 3
    avg_temperature_c := 44, activation_count := 12
    efficiency_rating := 7, tissue_sticking_incidents := 0 }

/-- First procedure of the two-row correlation witness population: every
numeric outcome column has value 1. -/
def procC1a : Procedure :=
  { procedure_id := "P1", procedure_type := "GI Surgery"
    duration_minutes := 1, efficiency_score := 1
    surgeon_experience_yrs := 0, patient_bmi := 0, blood_loss_ml := 1
    complications := 1, surgical_site := "Abdominal", instrument_changes := 0 }

/-- Second procedure of the correlation witness population: every numeric
outcome column has value 2. -/
def procC1b : Procedure :=
  { procedure_id := "P2", procedure_type := "GI Surgery"
    duration_minutes := 2, efficiency_score := 2
    surgeon_experience_yrs := 0, patient_bmi := 0, blood_loss_ml := 2
    complications := 2, surgical_site := "Abdominal", instrument_changes := 0 }

/-- Tool row for `procC1a`: every aggregated feature column has value 1. -/
def toolC1a : ToolUsage :=
  { procedure_id := "P1", tool_type := "Stapler"
    usage_time_minutes := 1, max_force_applied := 1
    avg_temperature_c := 1, activation_count := 0
    efficiency_rating := 1, tissue_sticking_incidents := 0 }

/-- Tool row for `procC1b`: every aggregated feature column has value 2. -/
def toolC1b : ToolUsage :=
  { procedure_id := "P2", tool_type := "Stapler"
    usage_time_minutes := 2, max_force_applied := 2
    avg_temperature_c := 2, activation_count := 0
    efficiency_rating := 2, tissue_sticking_incidents := 0 }

/-- First procedure of the degenerate-column witness population: the
`duration_minutes` column is constant (120) across the population. -/
def procC10a : Procedure :=
  { procedure_id := "P1", procedure_type := "GI Surgery"
    duration_minutes := 120, efficiency_score := 1
    surgeon_experience_yrs := 0, patient_bmi := 0, blood_loss_ml := 1
    complications := 1, surgical_site := "Abdominal", instrument_changes := 0 }

/-- Second procedure of the degenerate-column witness population, same
constant duration. -/
def procC10b : Procedure :=
  { procedure_id := "P2", procedure_type := "GI Surgery"
    duration_minutes := 120, efficiency_score := 2
    surgeon_experience_yrs := 0, patient_bmi := 0, blood_loss_ml := 2
    complications := 2, surgical_site := "Abdominal", instrument_changes := 0 }

/-! ## Theorems for the spec claims -/

/-! Helper lemmas about the Pearson statistic. -/

/-- A mapped list sum as a sum over `Fin`. -/
lemma listMapSum {α : Type} (data : List α) (h : α → ℚ) :
    (data.map h).sum = ∑ i : Fin data.length, h (data.get i) := by
  induction data with
  | nil => simp
  | cons a l ih =>
    rw [List.map_cons, List.sum_cons, ih]
    simp only [List.length_cons]
    rw [Fin.sum_univ_succ]
    rfl

/-- Cauchy–Schwarz for the centered second moments. -/
lemma corrS_sq_le {α : Type} (data : List α) (f g : α → ℚ) :
    corrS data f g ^ 2 ≤ corrS data f f * corrS data g g := by
  unfold corrS
  rw [listMapSum, listMapSum, listMapSum]
  have h := Finset.sum_mul_sq_le_sq_mul_sq Finset.univ
    (fun i : Fin data.length => f (data.get i) - qmean (data.map f))
    (fun i : Fin data.length => g (data.get i) - qmean (data.map g))
  simpa only [pow_two] using h

/-- A column's centered second moment is nonnegative. -/
lemma corrS_self_nonneg {α : Type} (data : List α) (f : α → ℚ) :
    0 ≤ corrS data f f := by
  apply List.sum_nonneg
  intro x hx
  obtain ⟨r, hr, rfl⟩ := List.mem_map.mp hx
  exact mul_self_nonneg _

/-- Any coefficient `pearsonr` actually returns lies in `[-1, 1]`. -/
lemma pearsonr_abs_le_one {α : Type} (data : List α) (f g : α → ℚ) (c : ℝ)
    (h : pearsonr data f g = some c) : |c| ≤ 1 := by
  unfold pearsonr at h
  split at h
  · exact absurd h (by simp)
  · rename_i hne
    push_neg at hne
    obtain ⟨hf0, hg0⟩ := hne
    have hfpos : (0 : ℚ) < corrS data f f :=
      lt_of_le_of_ne (corrS_self_nonneg data f) (Ne.symm hf0)
    have hgpos : (0 : ℚ) < corrS data g g :=
      lt_of_le_of_ne (corrS_self_nonneg data g) (Ne.symm hg0)
    obtain rfl := (Option.some.inj h).symm
    have hA : (0 : ℝ) < ((corrS data f f : ℚ) : ℝ) := by exact_mod_cast hfpos
    have hB : (0 : ℝ) < ((corrS data g g : ℚ) : ℝ) := by exact_mod_cast hgpos
    have hcs : ((corrS data f g : ℚ) : ℝ) ^ 2 ≤
        ((corrS data f f : ℚ) : ℝ) * ((corrS data g g : ℚ) : ℝ) := by
      exact_mod_cast corrS_sq_le data f g
    have hD : (0 : ℝ) <
        Real.sqrt (corrS data f f) * Real.sqrt (corrS data g g) :=
      mul_pos (Real.sqrt_pos.mpr hA) (Real.sqrt_pos.mpr hB)
    rw [abs_div, abs_of_pos hD, div_le_one hD]
    calc |((corrS data f g : ℚ) : ℝ)|
        = Real.sqrt (((corrS data f g : ℚ) : ℝ) ^ 2) :=
          (Real.sqrt_sq_eq_abs _).symm
      _ ≤ Real.sqrt (((corrS data f f : ℚ) : ℝ) * ((corrS data g g : ℚ) : ℝ)) :=
          Real.sqrt_le_sqrt hcs
      _ = Real.sqrt (corrS data f f) * Real.sqrt (corrS data g g) :=
          Real.sqrt_mul hA.le _

/-- Sum of a list all of whose elements equal `v`. -/
lemma listSumConst (l : List ℚ) (v : ℚ) (h : ∀ x ∈ l, x = v) :
    l.sum = l.length * v := by
  induction l with
  | nil => simp
  | cons a t ih =>
    have ha := h a (List.mem_cons_self a t)
    rw [List.sum_cons, ih (fun x hx => h x (List.mem_cons_of_mem a hx)), ha,
      List.length_cons]
    push_cast
    ring

/-- The mean of a nonempty constant column is the constant. -/
lemma qmean_const (l : List ℚ) (v : ℚ) (hne : l ≠ []) (h : ∀ x ∈ l, x = v) :
    qmean l = v := by
  unfold qmean
  rw [listSumConst l v h]
  have hl : ((l.length : ℚ)) ≠ 0 := by
    exact_mod_cast (List.length_pos.mpr hne).ne'
  field_simp

/-- A constant column has zero centered second moment. -/
lemma corrS_self_const {α : Type} (data : List α) (f : α → ℚ) (v : ℚ)
    (hne : data ≠ []) (h : ∀ r ∈ data, f r = v) : corrS data f f = 0 := by
  have hm : qmean (data.map f) = v := by
    refine qmean_const _ v (fun hc => hne (List.map_eq_nil_iff.mp hc)) ?_
    intro x hx
    obtain ⟨r, hr, rfl⟩ := List.mem_map.mp hx
    exact h r hr
  apply List.sum_eq_zero
  intro x hx
  obtain ⟨r, hr, rfl⟩ := List.mem_map.mp hx
  rw [h r hr, hm, sub_self, mul_zero]

/-- A constant feature column makes the coefficient undefined (NaN). -/
lemma pearsonr_none_left {α : Type} (data : List α) (f g : α → ℚ) (v : ℚ)
    (hne : data ≠ []) (h : ∀ r ∈ data, f r = v) : pearsonr data f g = none := by
  unfold pearsonr
  rw [if_pos (Or.inl (corrS_self_const data f v hne h))]

/-- A constant outcome column makes the coefficient undefined (NaN). -/
lemma pearsonr_none_right {α : Type} (data : List α) (f g : α → ℚ) (v : ℚ)
    (hne : data ≠ []) (h : ∀ r ∈ data, g r = v) : pearsonr data f g = none := by
  unfold pearsonr
  rw [if_pos (Or.inr (corrS_self_const data g v hne h))]

/-- The sixteen dictionary keys are pairwise distinct: a key determines its
(feature, metric) pair. -/
lemma corrKey_inj : ∀ f ∈ toolFeaturesList, ∀ m ∈ metricsList,
    ∀ f' ∈ toolFeaturesList, ∀ m' ∈ metricsList,
    corrKey f m = corrKey f' m' → f = f' ∧ m = m' := by decide

/-- Every entry of the `correlations` dictionary comes from a loop pair
whose coefficient is defined and exceeds the threshold in absolute
value. -/
lemma of_mem_corrEntries (procedures : List Procedure)
    (tool_metrics : List ToolUsage) (k : String) (e : CorrEntry)
    (h : (k, e) ∈ corrEntries procedures tool_metrics) :
    ∃ feature metric c, feature ∈ toolFeaturesList ∧ metric ∈ metricsList ∧
      k = corrKey feature metric ∧
      pearsonr (mergeToolAgg procedures tool_metrics)
        (mergedCol feature) (mergedCol metric) = some c ∧
      0.1 < |c| ∧ e.correlation = c := by
  unfold corrEntries at h
  rw [List.mem_flatMap] at h
  obtain ⟨metric, hm, h⟩ := h
  rw [List.mem_filterMap] at h
  obtain ⟨feature, hf, hfm⟩ := h
  rw [Option.bind_eq_some] at hfm
  obtain ⟨c, hc, hif⟩ := hfm
  split_ifs at hif with h01
  rw [Option.some.injEq, Prod.mk.injEq] at hif
  obtain ⟨hk, he⟩ := hif
  exact ⟨feature, metric, c, hf, hm, hk.symm, hc, h01, by rw [← he]⟩

/-- A loop pair whose coefficient is undefined or below the threshold
contributes no dictionary entry. -/
lemma not_mem_corrEntries (procedures : List Procedure)
    (tool_metrics : List ToolUsage) (feature metric : String)
    (hf : feature ∈ toolFeaturesList) (hm : metric ∈ metricsList)
    (hno : ∀ c : ℝ, pearsonr (mergeToolAgg procedures tool_metrics)
      (mergedCol feature) (mergedCol metric) = some c → |c| ≤ 0.1)
    (e : CorrEntry) :
    (corrKey feature metric, e) ∉ corrEntries procedures tool_metrics := by
  intro hmem
  obtain ⟨f', m', c', hf', hm', hk, hp, h01, -⟩ :=
    of_mem_corrEntries _ _ _ _ hmem
  obtain ⟨rfl, rfl⟩ := corrKey_inj feature hf metric hm f' hf' m' hm' hk
  exact absurd (hno c' hp) (not_le.mpr h01)

/-- C2: `_identify_outlier_causes` returns exactly the names of the
threshold rules (duration > 200, efficiency < 60, blood loss > 300,
instrument changes > 6) that fire on the record, in source order, so the
list length equals the number of firing rules whenever at least one fires;
when none fire it returns only the fallback label; and the cause list is
always at least as long as the number of firing rules. -/
theorem identifyOutlierCauses_spec (p : Procedure) :
    (ruleCount p = 0 → identifyOutlierCauses p = ["Complex case factors"]) ∧
    (0 < ruleCount p → identifyOutlierCauses p = firedCauses p ∧
      (identifyOutlierCauses p).length = ruleCount p) ∧
    ruleCount p ≤ (identifyOutlierCauses p).length := by
  unfold identifyOutlierCauses ruleCount firedCauses
  by_cases h1 : p.duration_minutes > 200 <;>
    by_cases h2 : p.efficiency_score < 60 <;>
      by_cases h3 : p.blood_loss_ml > 300 <;>
        by_cases h4 : p.instrument_changes > 6 <;>
          simp [h1, h2, h3, h4]

/-- Witness for C2 at a record firing two rules. -/
theorem identifyOutlierCauses_spec_witness :
    identifyOutlierCauses outlierProcW =
      ["Extended procedure duration", "High blood loss"] ∧
    ruleCount outlierProcW = 2 := by
  have h := (identifyOutlierCauses_spec outlierProcW).2.1 (by decide)
  exact ⟨h.1.trans (by decide), by decide⟩

set_option maxRecDepth 8000 in
/-- C4: under Python's IEEE-754 double semantics,
`perform_power_analysis` yields required sample size 399 for effect size
0.2 (not the 400 the spec states, because `16 / (0.2 ** 2)` evaluates to
399.99999999999994 and `int` truncates) and 24 for effect size 0.8 (not
25); only the 0.5 scenario yields the exact value 64. -/
theorem performPowerAnalysis_values :
    (performPowerAnalysis [] "efficiency_score").map
        (fun e => (e.1, e.2.required_sample_size)) =
      [("effect_size_0.2", 399), ("effect_size_0.5", 64),
       ("effect_size_0.8", 24)] ∧
    (399 : ℤ) ≠ 400 ∧ (24 : ℤ) ≠ 25 := by
  refine ⟨by decide, by decide, by decide⟩

/-- C5: `_name_surgical_phase` is a total deterministic function of the
(mean force, mean current) pair: every pair of reals receives exactly one
of the four phase labels, and equal pairs receive equal labels. -/
theorem nameSurgicalPhase_total (force current : ℝ) :
    (∃! l, l ∈ phaseLabels ∧ nameSurgicalPhase force current = l) ∧
    (∀ force' current', force = force' → current = current' →
      nameSurgicalPhase force current = nameSurgicalPhase force' current') := by
  constructor
  · refine ⟨nameSurgicalPhase force current, ⟨?_, rfl⟩, ?_⟩
    · unfold nameSurgicalPhase phaseLabels
      split_ifs <;> simp
    · rintro y ⟨-, hy⟩
      exact hy.symm
  · rintro f' c' rfl rfl
    rfl

/-- Witness for C5 at the concrete mean pair (0, 0). -/
theorem nameSurgicalPhase_total_witness :
    nameSurgicalPhase 0 0 ∈ phaseLabels ∧
    nameSurgicalPhase 0 0 = nameSurgicalPhase 0 0 := by
  obtain ⟨⟨l, ⟨hl, he⟩, -⟩, hdet⟩ := nameSurgicalPhase_total 0 0
  exact ⟨he ▸ hl, hdet 0 0 rfl rfl⟩

/-- C3: whenever `identify_efficiency_outliers` succeeds, the returned
outlier rate equals the returned outlier count divided by the number of
joined records, and that count is the number of records the detector
flagged. -/
theorem outlierRate_eq_count_div_total
    (forest : ℕ → List (List ℝ) → List Bool) (st : AnalyzerState)
    (procedures : List Procedure) (tool_metrics : List ToolUsage)
    (st' : AnalyzerState) (rep : OutlierReport)
    (h : identifyEfficiencyOutliers forest st procedures tool_metrics =
      .ok (st', rep)) :
    rep.outlier_rate = (rep.total_outliers : ℚ) /
      ((mergeEff procedures tool_metrics).length : ℚ) ∧
    rep.total_outliers =
      (((mergeEff procedures tool_metrics).zip
        (forest 42 (fitTransform 6
          ((mergeEff procedures tool_metrics).map effFeatures)))).filter
            Prod.snd).length := by
  unfold identifyEfficiencyOutliers at h
  dsimp only at h
  split at h
  · exact absurd h (by simp)
  · simp only [Except.ok.injEq, Prod.mk.injEq] at h
    obtain ⟨-, rfl⟩ := h
    exact ⟨rfl, by simp⟩

/-- Witness for C3: a detector flagging the single joined record gives
outlier count 1 and rate 1/1. -/
theorem outlierRate_eq_count_div_total_witness :
    ∃ st' rep,
      identifyEfficiencyOutliers (fun _ _ => [true]) analyzerInit
        [procW3] [toolW3] = .ok (st', rep) ∧
      rep.outlier_rate = (rep.total_outliers : ℚ) / 1 := by
  obtain ⟨st', rep, hok⟩ :
      ∃ st' rep, identifyEfficiencyOutliers (fun _ _ => [true]) analyzerInit
        [procW3] [toolW3] = .ok (st', rep) := by
    unfold identifyEfficiencyOutliers
    rw [if_neg (by with_unfolding_all decide)]
    exact ⟨_, _, rfl⟩
  refine ⟨st', rep, hok, ?_⟩
  have hlen : ((mergeEff [procW3] [toolW3]).length : ℚ) = 1 := by
    with_unfolding_all decide
  simpa [hlen] using
    (outlierRate_eq_count_div_total _ _ _ _ _ _ hok).1

/-- C8: on an empty joined population `identify_efficiency_outliers`
produces a defined error (the input validation of
`StandardScaler.fit_transform` raises `ValueError` on a 0-sample array)
and never reaches the outlier-rate division. -/
theorem identifyEfficiencyOutliers_empty_error
    (forest : ℕ → List (List ℝ) → List Bool) (st : AnalyzerState)
    (procedures : List Procedure) (tool_metrics : List ToolUsage)
    (h : mergeEff procedures tool_metrics = []) :
    identifyEfficiencyOutliers forest st procedures tool_metrics =
      .error "Found array with 0 sample(s) (shape=(0, 6)) while a minimum of 1 is required by StandardScaler." := by
  unfold identifyEfficiencyOutliers
  rw [h]
  rfl

/-- Witness for C8 at the empty input population. -/
theorem identifyEfficiencyOutliers_empty_error_witness :
    identifyEfficiencyOutliers (fun _ _ => []) analyzerInit [] [] =
      .error "Found array with 0 sample(s) (shape=(0, 6)) while a minimum of 1 is required by StandardScaler." :=
  identifyEfficiencyOutliers_empty_error (fun _ _ => []) analyzerInit [] [] rfl

/-- C7: with the library estimators at their fixed seed taken as functions,
the result component of `identify_efficiency_outliers` and of
`detect_surgical_phases` does not depend on the incoming analyzer state
(the standardizer is refit on every call and the model attributes are
overwritten, never read).  In particular a second run — started from
whatever state the first run left behind — returns the same output as the
first, so each engine call is a deterministic function of its input
population. -/
theorem engines_state_independent
    (forest : ℕ → List (List ℝ) → List Bool)
    (kmeans : ℕ → ℕ → List (List ℝ) → List ℕ)
    (sil : List (List ℝ) → List ℕ → ℝ) (s₁ s₂ : AnalyzerState)
    (procedures : List Procedure) (tool_metrics : List ToolUsage)
    (sensor_data : List SensorRow) (n_clusters : ℕ) :
    (identifyEfficiencyOutliers forest s₁ procedures tool_metrics).map
        Prod.snd =
      (identifyEfficiencyOutliers forest s₂ procedures tool_metrics).map
        Prod.snd ∧
    (detectSurgicalPhases kmeans sil s₁ sensor_data n_clusters).map
        Prod.snd =
      (detectSurgicalPhases kmeans sil s₂ sensor_data n_clusters).map
        Prod.snd := by
  constructor
  · unfold identifyEfficiencyOutliers
    dsimp only
    split <;> rfl
  · unfold detectSurgicalPhases
    dsimp only
    split <;> rfl

/-- C9: each of the four engine calls leaves the stored input record
collections unchanged; every derived column (`is_outlier`, `phase`) lives
on a frame created by `merge`/`groupby(...).agg(...)` inside the call. -/
theorem engines_preserve_store
    (forest : ℕ → List (List ℝ) → List Bool)
    (kmeans : ℕ → ℕ → List (List ℝ) → List ℕ)
    (sil : List (List ℝ) → List ℕ → ℝ) (s : Store) (st : AnalyzerState)
    (n_clusters : ℕ) :
    (analyzeToolPerformanceCorrelationRun s st).1 = s ∧
    (identifyEfficiencyOutliersRun forest s st).1 = s ∧
    (detectSurgicalPhasesRun kmeans sil s st n_clusters).1 = s ∧
    (analyzeProcedureTypePatternsRun s st).1 = s :=
  ⟨rfl, rfl, rfl, rfl⟩

/-- C6 counterexample: at coefficient 0.3 the claim's bucketing
(moderate when 0.3 ≤ |c| ≤ 0.5) disagrees with the code, whose strict
comparison `abs(corr) > 0.3` yields "weak" there. -/
theorem strengthWord_boundary_counterexample :
    ((0.3 : ℝ) ≤ |(0.3 : ℝ)| ∧ |(0.3 : ℝ)| ≤ 0.5) ∧
    strengthWord 0.3 = "weak" ∧ strengthWord 0.3 ≠ "moderate" := by
  have habs : |(0.3 : ℝ)| = 0.3 := abs_of_pos (by norm_num)
  have hw : strengthWord 0.3 = "weak" := by
    unfold strengthWord
    rw [if_neg (by rw [habs]; norm_num), if_neg (by rw [habs]; norm_num)]
  refine ⟨⟨by rw [habs], by rw [habs]; norm_num⟩, hw, by rw [hw]; decide⟩

/-- C6 (amended): the strength word is "weak" when |c| ≤ 0.3 (the
boundary 0.3 itself is weak, not moderate), "moderate" when
0.3 < |c| ≤ 0.5, "strong" when |c| > 0.5; the direction word is
"positive" when c > 0 and "negative" otherwise; the phrasing comes from
the fixed three-entry lookup table, with the generic fallback phrase for
every other (feature, metric) pair. -/
theorem interpretCorrelation_spec (c : ℝ) (feature metric : String) :
    (|c| ≤ 0.3 → strengthWord c = "weak") ∧
    (0.3 < |c| → |c| ≤ 0.5 → strengthWord c = "moderate") ∧
    (0.5 < |c| → strengthWord c = "strong") ∧
    (0 < c → directionWord c = "positive") ∧
    (c ≤ 0 → directionWord c = "negative") ∧
    (corrKey feature metric ≠ "max_force_applied_duration_minutes" →
     corrKey feature metric ≠ "efficiency_rating_efficiency_score" →
     corrKey feature metric ≠ "usage_time_minutes_blood_loss_ml" →
      interpretCorrelation c feature metric =
        strengthWord c ++ " " ++ directionWord c ++ " correlation") ∧
    interpretCorrelation c "max_force_applied" "duration_minutes" =
      strengthWord c ++ " " ++ directionWord c ++
        " relationship between maximum force and procedure duration" ∧
    interpretCorrelation c "efficiency_rating" "efficiency_score" =
      strengthWord c ++ " " ++ directionWord c ++
        " relationship between tool efficiency and overall procedure efficiency" ∧
    interpretCorrelation c "usage_time_minutes" "blood_loss_ml" =
      strengthWord c ++ " " ++ directionWord c ++
        " relationship between tool usage time and blood loss" := by
  refine ⟨?_, ?_, ?_, ?_, ?_, ?_, ?_, ?_, ?_⟩
  · intro h
    unfold strengthWord
    rw [if_neg (by linarith), if_neg (by linarith)]
  · intro h1 h2
    unfold strengthWord
    rw [if_neg (by linarith), if_pos (by linarith)]
  · intro h
    unfold strengthWord
    rw [if_pos (by linarith)]
  · intro h
    unfold directionWord
    rw [if_pos h]
  · intro h
    unfold directionWord
    rw [if_neg (by linarith)]
  · intro h1 h2 h3
    unfold interpretCorrelation
    have e1 := beq_eq_false_iff_ne.mpr h1
    have e2 := beq_eq_false_iff_ne.mpr h2
    have e3 := beq_eq_false_iff_ne.mpr h3
    simp [List.lookup, e1, e2, e3]
  · unfold interpretCorrelation
    simp [List.lookup, corrKey]
  · unfold interpretCorrelation
    simp [List.lookup, corrKey]
  · unfold interpretCorrelation
    simp [List.lookup, corrKey]

/-- Witness for C6 at coefficient 0.4 and a pair outside the lookup
table. -/
theorem interpretCorrelation_spec_witness :
    strengthWord 0.4 = "moderate" ∧ directionWord 0.4 = "positive" ∧
    interpretCorrelation 0.4 "avg_temperature_c" "complications" =
      "moderate positive correlation" := by
  have habs : |(0.4 : ℝ)| = 0.4 := abs_of_pos (by norm_num)
  obtain ⟨-, hmod, -, hpos, -, hgen, -⟩ :=
    interpretCorrelation_spec 0.4 "avg_temperature_c" "complications"
  have h1 : strengthWord 0.4 = "moderate" :=
    hmod (by rw [habs]; norm_num) (by rw [habs]; norm_num)
  have h2 : directionWord 0.4 = "positive" := hpos (by norm_num)
  refine ⟨h1, h2, ?_⟩
  rw [hgen (by decide) (by decide) (by decide), h1, h2]
  rfl

/-- C1: whenever `analyze_tool_performance_correlation` succeeds, every
entry of the returned mapping has a correlation coefficient in [-1, 1]
whose absolute value exceeds the fixed threshold 0.1; and a loop pair
whose defined coefficient does not exceed 0.1 in absolute value is absent
from the output. -/
theorem analyzeCorr_threshold (procedures : List Procedure)
    (tool_metrics : List ToolUsage) (out : List (String × CorrEntry))
    (h : analyzeToolPerformanceCorrelation procedures tool_metrics = .ok out) :
    (∀ k e, (k, e) ∈ out →
      -1 ≤ e.correlation ∧ e.correlation ≤ 1 ∧ 0.1 < |e.correlation|) ∧
    (∀ feature metric c, feature ∈ toolFeaturesList → metric ∈ metricsList →
      pearsonr (mergeToolAgg procedures tool_metrics)
        (mergedCol feature) (mergedCol metric) = some c →
      |c| ≤ 0.1 → ∀ e, (corrKey feature metric, e) ∉ out) := by
  unfold analyzeToolPerformanceCorrelation at h
  split at h
  · exact absurd h (by simp)
  · rw [Except.ok.injEq] at h
    subst h
    constructor
    · intro k e hmem
      obtain ⟨f, m, c, -, -, -, hp, h01, he⟩ :=
        of_mem_corrEntries _ _ _ _ hmem
      have hb := pearsonr_abs_le_one _ _ _ _ hp
      rw [he]
      exact ⟨(abs_le.mp hb).1, (abs_le.mp hb).2, h01⟩
    · intro feature metric c hf hm hp hle e
      refine not_mem_corrEntries _ _ _ _ hf hm (fun c' hp' => ?_) e
      rw [hp, Option.some.injEq] at hp'
      exact hp' ▸ hle

/-- Witness for C1: on the two-row perfectly correlated population the
(usage time, duration) entry is present with coefficient 1. -/
theorem analyzeCorr_threshold_witness :
    ∃ out e,
      analyzeToolPerformanceCorrelation [procC1a, procC1b]
        [toolC1a, toolC1b] = .ok out ∧
      ("usage_time_minutes_duration_minutes", e) ∈ out ∧
      -1 ≤ e.correlation ∧ e.correlation ≤ 1 ∧ 0.1 < |e.correlation| := by
  have hok : analyzeToolPerformanceCorrelation [procC1a, procC1b]
      [toolC1a, toolC1b] = .ok (corrEntries [procC1a, procC1b]
        [toolC1a, toolC1b]) := by
    unfold analyzeToolPerformanceCorrelation
    rw [if_neg (by with_unfolding_all decide)]
  have hff : corrS (mergeToolAgg [procC1a, procC1b] [toolC1a, toolC1b])
      (mergedCol "usage_time_minutes") (mergedCol "usage_time_minutes") =
        1 / 2 := by
    with_unfolding_all decide
  have hgg : corrS (mergeToolAgg [procC1a, procC1b] [toolC1a, toolC1b])
      (mergedCol "duration_minutes") (mergedCol "duration_minutes") =
        1 / 2 := by
    with_unfolding_all decide
  have hfg : corrS (mergeToolAgg [procC1a, procC1b] [toolC1a, toolC1b])
      (mergedCol "usage_time_minutes") (mergedCol "duration_minutes") =
        1 / 2 := by
    with_unfolding_all decide
  have hp : pearsonr (mergeToolAgg [procC1a, procC1b] [toolC1a, toolC1b])
      (mergedCol "usage_time_minutes") (mergedCol "duration_minutes") =
        some 1 := by
    unfold pearsonr
    rw [hff, hgg, hfg, if_neg (by norm_num)]
    have hc : (((1 / 2 : ℚ)) : ℝ) = 1 / 2 := by norm_num
    rw [hc, Real.mul_self_sqrt (by norm_num : (0 : ℝ) ≤ 1 / 2)]
    norm_num
  have hmem : ("usage_time_minutes_duration_minutes",
      ({ correlation := 1,
         interpretation :=
           interpretCorrelation 1 "usage_time_minutes" "duration_minutes" } :
        CorrEntry)) ∈ corrEntries [procC1a, procC1b] [toolC1a, toolC1b] := by
    unfold corrEntries
    refine List.mem_flatMap.mpr ⟨"duration_minutes", by decide, ?_⟩
    refine List.mem_filterMap.mpr ⟨"usage_time_minutes", by decide, ?_⟩
    rw [hp, Option.some_bind, if_pos (by norm_num : (0.1 : ℝ) < |(1 : ℝ)|)]
    rfl
  obtain ⟨hb1, hb2, hb3⟩ :=
    (analyzeCorr_threshold _ _ _ hok).1 _ _ hmem
  exact ⟨_, _, hok, hmem, hb1, hb2, hb3⟩

/-- C10: a constant (zero-variance) feature or outcome column makes the
coefficient of every pair involving it undefined (NaN, modelled as
`none`), such a pair never passes the strict 0.1 inclusion test and is
silently absent from the output; every coefficient the mapping does
contain is a defined real number, and no error is raised for degenerate
columns (the only error condition is a merged population of fewer than
two rows). -/
theorem analyzeCorr_degenerate (procedures : List Procedure)
    (tool_metrics : List ToolUsage) :
    (2 ≤ (mergeToolAgg procedures tool_metrics).length →
      analyzeToolPerformanceCorrelation procedures tool_metrics =
        .ok (corrEntries procedures tool_metrics)) ∧
    (∀ out, analyzeToolPerformanceCorrelation procedures tool_metrics =
        .ok out →
      (∀ k e, (k, e) ∈ out → ∃ feature metric c,
        feature ∈ toolFeaturesList ∧ metric ∈ metricsList ∧
        pearsonr (mergeToolAgg procedures tool_metrics)
          (mergedCol feature) (mergedCol metric) = some c ∧
        e.correlation = c) ∧
      (∀ feature metric v, feature ∈ toolFeaturesList → metric ∈ metricsList →
        ((∀ r ∈ mergeToolAgg procedures tool_metrics,
            mergedCol feature r = v) ∨
         (∀ r ∈ mergeToolAgg procedures tool_metrics,
            mergedCol metric r = v)) →
        pearsonr (mergeToolAgg procedures tool_metrics)
          (mergedCol feature) (mergedCol metric) = none ∧
        ∀ e, (corrKey feature metric, e) ∉ out)) := by
  constructor
  · intro hlen
    unfold analyzeToolPerformanceCorrelation
    rw [if_neg (not_lt.mpr hlen)]
  · intro out hok
    have hout : out = corrEntries procedures tool_metrics ∧
        ¬ (mergeToolAgg procedures tool_metrics).length < 2 := by
      unfold analyzeToolPerformanceCorrelation at hok
      split at hok
      · exact absurd hok (by simp)
      · rename_i hlt
        rw [Except.ok.injEq] at hok
        exact ⟨hok.symm, hlt⟩
    obtain ⟨rfl, hlen⟩ := hout
    have hne : mergeToolAgg procedures tool_metrics ≠ [] := by
      intro hnil
      rw [hnil] at hlen
      exact hlen (by simp)
    constructor
    · intro k e hmem
      obtain ⟨f, m, c, hf, hm, -, hp, -, he⟩ :=
        of_mem_corrEntries _ _ _ _ hmem
      exact ⟨f, m, c, hf, hm, hp, he⟩
    · intro feature metric v hf hm hconst
      have hnone : pearsonr (mergeToolAgg procedures tool_metrics)
          (mergedCol feature) (mergedCol metric) = none := by
        rcases hconst with hcf | hcm
        · exact pearsonr_none_left _ _ _ v hne hcf
        · exact pearsonr_none_right _ _ _ v hne hcm
      refine ⟨hnone, not_mem_corrEntries _ _ _ _ hf hm
        (fun c' hp' => ?_)⟩
      rw [hnone] at hp'
      exact absurd hp' (by simp)

/-- Witness for C10: with a constant `duration_minutes` column the
(usage time, duration) pair is NaN and absent while the call still
succeeds. -/
theorem analyzeCorr_degenerate_witness :
    ∃ out,
      analyzeToolPerformanceCorrelation [procC10a, procC10b]
        [toolC1a, toolC1b] = .ok out ∧
      pearsonr (mergeToolAgg [procC10a, procC10b] [toolC1a, toolC1b])
        (mergedCol "usage_time_minutes") (mergedCol "duration_minutes") =
          none ∧
      ∀ e, ("usage_time_minutes_duration_minutes", e) ∉ out := by
  have hok := (analyzeCorr_degenerate [procC10a, procC10b]
    [toolC1a, toolC1b]).1 (by with_unfolding_all decide)
  have hconst : ∀ r ∈ mergeToolAgg [procC10a, procC10b] [toolC1a, toolC1b],
      mergedCol "duration_minutes" r = 120 := by
    with_unfolding_all decide
  obtain ⟨hnone, habs⟩ := ((analyzeCorr_degenerate [procC10a, procC10b]
    [toolC1a, toolC1b]).2 _ hok).2 "usage_time_minutes" "duration_minutes"
    120 (by decide) (by decide) (Or.inr hconst)
  exact ⟨_, hok, hnone, habs⟩

end SWI
